import Mathlib

set_option maxRecDepth 8192

/- Verification of the tool-capability-protocol kernel modules.

   Part 1 embeds src/consortium/sam-mitchell/kernel-development/tcp_kernel_module.c
   (the "tcp_security" module): descriptor format validation, checksum check,
   hardware security gates, decision cache and statistics.

   Byte buffers are lists of naturals (each in 0..255 in the intended use);
   multi-byte struct fields are read little-endian, matching the x86-64
   `__packed` struct overlay used by the C code.  Error codes follow the C
   conventions: -22 = -EINVAL (malformed / integrity violation),
   -13 = -EACCES (policy denied), 1 = allow, and a cached 0/1 byte on a
   cache hit. -/

namespace TcpSecurityModule

def TCP_MAGIC_CLASSICAL : Nat := 0x50435402

def TCP_MAGIC_QUANTUM : Nat := 0x51504354

def TCP_HW_TPM : Nat := 8

def TCP_HW_SGX : Nat := 16

def TCP_CACHE_SIZE : Nat := 10000

/-- Little-endian 16-bit field read at byte offset `off` (reads past the end
of the buffer give 0; on the paths the C code takes, all reads are in
bounds). -/
def readLE16 (buf : List Nat) (off : Nat) : Nat :=
  buf.getD off 0 + 256 * buf.getD (off + 1) 0

/-- Little-endian 32-bit field read at byte offset `off`. -/
def readLE32 (buf : List Nat) (off : Nat) : Nat :=
  buf.getD off 0 + 256 * buf.getD (off + 1) 0 + 65536 * buf.getD (off + 2) 0 +
    16777216 * buf.getD (off + 3) 0

/-- External kernel-crypto collaborators used by `tcp_hardware_crc16` and the
cache-fingerprint computation in `tcp_validate_descriptor_kernel`.  The C
code asks the crypto API for a "crc32" / "sha256" transform and falls back
to a byte sum / truncated-copy when allocation fails; availability and the
accelerated digests are modelled as parameters. -/
structure KernelCrypto where
  crc32_avail : Bool
  crc32 : List Nat → Nat
  sha256_avail : Bool
  sha256 : List Nat → List Nat

/-- The crypto environment in which both `crypto_alloc_shash` calls fail, so
the C code takes its deterministic fallback paths. -/
def fallback_crypto : KernelCrypto :=
  { crc32_avail := false, crc32 := fun _ => 0,
    sha256_avail := false, sha256 := fun _ => [] }

/-- `tcp_hardware_crc16` (lines 154-176): hardware CRC32 truncated to 16 bits
when the crypto transform is available, otherwise the byte-summing fallback
(`crc += data[i]` on a u32, then `& 0xFFFF`; the u32 accumulation mod 2^32
followed by `& 0xFFFF` equals the plain sum mod 2^16). -/
def tcp_hardware_crc16 (kc : KernelCrypto) (data : List Nat) : Nat :=
  if kc.crc32_avail then kc.crc32 data % 65536
  else (data.foldl (· + ·) 0) % 65536

/-- The 8-byte cache fingerprint computed at the top of
`tcp_validate_descriptor_kernel` (lines 249-264): SHA-256 truncated to
8 bytes when available, otherwise the first `min len 8` bytes of the
descriptor zero-padded to 8 bytes. -/
def tcp_descriptor_hash (kc : KernelCrypto) (buf : List Nat) : List Nat :=
  if kc.sha256_avail then (kc.sha256 buf).take 8
  else buf.take 8 ++ List.replicate (8 - buf.length) 0

/-- Cache entry (struct tcp_cache_entry): 8-byte truncated hash, 1-byte
cached validation result, timestamp. -/
structure tcp_cache_entry where
  descriptor_hash : List Nat
  validation_result : Nat
  timestamp : Nat

/-- The all-zero entry `kcalloc` fills the cache with at module init. -/
def tcp_zero_entry : tcp_cache_entry :=
  { descriptor_hash := List.replicate 8 0, validation_result := 0, timestamp := 0 }

/-- The freshly allocated cache: TCP_CACHE_SIZE zeroed entries. -/
def tcp_initial_cache : List tcp_cache_entry :=
  List.replicate TCP_CACHE_SIZE tcp_zero_entry

/-- `tcp_cache_lookup` (lines 124-138): linear scan, first entry whose 8-byte
hash matches wins; returns the cached result on a hit. -/
def tcp_cache_lookup (cache : List tcp_cache_entry) (h : List Nat) : Option Nat :=
  match cache with
  | [] => none
  | e :: rest =>
      if e.descriptor_hash = h then some e.validation_result
      else tcp_cache_lookup rest h

/-- `tcp_cache_store` (lines 141-151): overwrite the slot at the ring head,
advance the head modulo the cache size (the cache list always has length
TCP_CACHE_SIZE in reachable states, so `cache.length` is that constant). -/
def tcp_cache_store (cache : List tcp_cache_entry) (head : Nat)
    (h : List Nat) (result : Nat) (ts : Nat) : List tcp_cache_entry × Nat :=
  (cache.set head { descriptor_hash := h, validation_result := result, timestamp := ts },
   (head + 1) % cache.length)

/-- `tcp_lsm_security_check` (lines 191-206): for a 24-byte descriptor, deny
(return 0) when flag bit 0x0001 — the bit the C comment labels DESTRUCTIVE —
is set; allow (return 1) otherwise.  Buffers of any other length, including
the 32-byte quantum descriptors, are not inspected at all. -/
def tcp_lsm_security_check (buf : List Nat) : Nat :=
  if buf.length = 24 then
    if readLE32 buf 8 &&& 0x0001 ≠ 0 then 0 else 1
  else 1

/-- `tcp_ebpf_security_check` (lines 179-188): length-class heuristic only. -/
def tcp_ebpf_security_check (buf : List Nat) : Nat :=
  if buf.length = 24 ∨ buf.length = 32 then 1 else 0

/-- `tcp_sgx_validation` (lines 209-221): skip (pass) when the SGX feature
bit is absent; the simulated enclave check also passes. -/
def tcp_sgx_validation (hw : Nat) (buf : List Nat) : Nat :=
  if hw &&& TCP_HW_SGX = 0 then 1 else 1

/-- `tcp_tpm_attestation` (lines 224-234): skip (pass) when the TPM feature
bit is absent; the simulated attestation also passes. -/
def tcp_tpm_attestation (hw : Nat) (buf : List Nat) : Nat :=
  if hw &&& TCP_HW_TPM = 0 then 1 else 1

/-- The format-validation block of `tcp_validate_descriptor_kernel`
(lines 274-310).  `none` means the format checks passed; `some e` means the
code jumped to `out` with error `e` (-22 = -EINVAL).  Classical packed
layout: magic at 0, command_hash at 4, security_flags at 8, perf at 12,
reserved at 18, checksum at 20; the CRC is computed over the first 22 bytes
of the buffer.  Quantum packed layout: magic at 0, version byte at 4. -/
def tcp_format_check (kc : KernelCrypto) (buf : List Nat) : Option Int :=
  if buf.length = 24 then
    if readLE32 buf 0 ≠ TCP_MAGIC_CLASSICAL then some (-22)
    else if tcp_hardware_crc16 kc (buf.take 22) ≠ readLE16 buf 20 then some (-22)
    else none
  else if buf.length = 32 then
    if readLE32 buf 0 ≠ TCP_MAGIC_QUANTUM then some (-22)
    else if buf.getD 4 0 < 3 then some (-22)
    else none
  else some (-22)

/-- Format validation followed by the four hardware security gates
(lines 274-333): the first failing gate yields -13 (-EACCES), otherwise 1. -/
def tcp_compute_result (kc : KernelCrypto) (hw : Nat) (buf : List Nat) : Int :=
  match tcp_format_check kc buf with
  | some e => e
  | none =>
      if tcp_lsm_security_check buf = 0 then -13
      else if tcp_ebpf_security_check buf = 0 then -13
      else if tcp_sgx_validation hw buf = 0 then -13
      else if tcp_tpm_attestation hw buf = 0 then -13
      else 1

/-- struct tcp_validation_context: the statistics counters (the spinlock is
the concurrency discipline, not data). -/
structure tcp_validation_context where
  hardware_features : Nat
  security_level : Nat
  validation_count : Nat
  cache_hits : Nat
  security_violations : Nat
  total_time_ns : Nat

/-- The module's global mutable state: tcp_ctx, tcp_cache, tcp_cache_head. -/
structure tcp_globals where
  ctx : tcp_validation_context
  tcp_cache : List tcp_cache_entry
  tcp_cache_head : Nat

/-- Module state right after `tcp_kernel_init` (hardware features are
host-dependent, so they stay a parameter). -/
def tcp_initial_globals (hw : Nat) : tcp_globals :=
  { ctx := { hardware_features := hw, security_level := 1, validation_count := 0,
             cache_hits := 0, security_violations := 0, total_time_ns := 0 },
    tcp_cache := tcp_initial_cache,
    tcp_cache_head := 0 }

/-- `tcp_validate_descriptor_kernel` (lines 237-350).  `elapsed` is the
externally measured end-start time added to `total_time_ns`, `ts` the
timestamp written into the cache entry.  On a cache hit the cached 0/1 byte
is returned and only `cache_hits` is bumped; on a miss the computed result
is collapsed to `result > 0 ? 1 : 0` and stored, `validation_count` and
`total_time_ns` are bumped, and `security_violations` is bumped when the
result is ≤ 0. -/
def tcp_validate_descriptor_kernel (kc : KernelCrypto) (elapsed ts : Nat)
    (s : tcp_globals) (buf : List Nat) : Int × tcp_globals :=
  let dh := tcp_descriptor_hash kc buf
  match tcp_cache_lookup s.tcp_cache dh with
  | some cached_result =>
      (Int.ofNat cached_result,
        { s with ctx := { s.ctx with cache_hits := s.ctx.cache_hits + 1 } })
  | none =>
      let result := tcp_compute_result kc s.ctx.hardware_features buf
      let stored := tcp_cache_store s.tcp_cache s.tcp_cache_head dh
        (if 0 < result then 1 else 0) ts
      (result,
        { ctx :=
            { s.ctx with
              validation_count := s.ctx.validation_count + 1,
              total_time_ns := s.ctx.total_time_ns + elapsed,
              security_violations :=
                s.ctx.security_violations + (if result ≤ 0 then 1 else 0) },
          tcp_cache := stored.1,
          tcp_cache_head := stored.2 })

/-- The average-time derivation in `tcp_proc_show` (lines 355-362): the
division only happens under the `validation_count > 0` guard. -/
def tcp_proc_avg_time_ns (c : tcp_validation_context) : Nat :=
  if 0 < c.validation_count then c.total_time_ns / c.validation_count else 0

/-- The cache-hit-rate derivation in `tcp_proc_show` (lines 357-366),
a percentage, likewise guarded by `validation_count > 0`. -/
def tcp_proc_cache_hit_rate (c : tcp_validation_context) : Nat :=
  if 0 < c.validation_count then c.cache_hits * 100 / c.validation_count else 0

/-- The cache entry `tcp_cache_store` writes for a (fingerprint, decision)
pair; the timestamp does not affect lookups, so 0 stands for `ktime`. -/
def tcp_seq_entry (p : List Nat × Nat) : tcp_cache_entry :=
  { descriptor_hash := p.1, validation_result := p.2, timestamp := 0 }

/-- Fold `tcp_cache_store` over a list of (fingerprint, decision) pairs,
threading the (entries, ring head) state. -/
def tcp_store_sequence : List (List Nat × Nat) → List tcp_cache_entry × Nat →
    List tcp_cache_entry × Nat
  | [], s => s
  | p :: ps, s => tcp_store_sequence ps (tcp_cache_store s.1 s.2 p.1 p.2 0)

end TcpSecurityModule

/- Part 2 embeds src/kernel/tcp_kernel_module.c (the "tcp_kernel" syscall
   integration module): the static syscall descriptor registry, the
   caller-context computation and `tcp_analyze_syscall`.  Return values
   follow the C code: 0 = allow, -1 = -EPERM = deny. -/

namespace TcpKernelIntegration

def TCP_FLAG_SAFE : Nat := 0x0001

def TCP_FLAG_DESTRUCTIVE : Nat := 0x0002

def TCP_FLAG_FILESYSTEM : Nat := 0x0004

def TCP_FLAG_NETWORK : Nat := 0x0008

def TCP_FLAG_EXECUTION : Nat := 0x0010

def TCP_FLAG_CRITICAL : Nat := 0x0020

def TCP_FLAG_KERNEL : Nat := 0x0040

def TCP_FLAG_PRIVESC : Nat := 0x0080

def TCP_CTX_USER : Nat := 0x01

def TCP_CTX_ADMIN : Nat := 0x02

def TCP_CTX_KERNEL : Nat := 0x04

def TCP_CTX_CONTAINER : Nat := 0x08

def TCP_CTX_ALL : Nat := 0xFF

def TCP_PRIV_USER : Nat := 0

def TCP_PRIV_ROOT : Nat := 1

def TCP_PRIV_KERNEL : Nat := 2

/-- x86-64 system call numbers for the four registry entries. -/
def NR_unlink : Int := 87

def NR_execve : Int := 59

def NR_init_module : Int := 175

def NR_getpid : Int := 39

/-- struct tcp_kernel_descriptor (lines 33-40). -/
structure tcp_kernel_descriptor where
  syscall_nr : Int
  security_flags : Nat
  context_mask : Nat
  privilege_level : Nat
  pattern : String
  checksum : Nat

/-- The static descriptor database `tcp_descriptors` (lines 83-123). -/
def tcp_descriptors : List tcp_kernel_descriptor :=
  [ { syscall_nr := NR_unlink,
      security_flags := TCP_FLAG_DESTRUCTIVE ||| TCP_FLAG_FILESYSTEM,
      context_mask := TCP_CTX_USER ||| TCP_CTX_ADMIN,
      privilege_level := TCP_PRIV_USER,
      pattern := "file_deletion", checksum := 0x1A2B3C4D },
    { syscall_nr := NR_execve,
      security_flags := TCP_FLAG_EXECUTION ||| TCP_FLAG_CRITICAL,
      context_mask := TCP_CTX_ALL,
      privilege_level := TCP_PRIV_USER,
      pattern := "program_exec", checksum := 0x5E6F7890 },
    { syscall_nr := NR_init_module,
      security_flags := TCP_FLAG_CRITICAL ||| TCP_FLAG_KERNEL ||| TCP_FLAG_DESTRUCTIVE,
      context_mask := TCP_CTX_ADMIN ||| TCP_CTX_KERNEL,
      privilege_level := TCP_PRIV_ROOT,
      pattern := "module_load", checksum := 0x9ABC1234 },
    { syscall_nr := NR_getpid,
      security_flags := TCP_FLAG_SAFE,
      context_mask := TCP_CTX_ALL,
      privilege_level := TCP_PRIV_USER,
      pattern := "pid_query", checksum := 0xDEF56789 } ]

/-- `tcp_find_descriptor` (lines 128-139): linear scan by syscall number. -/
def tcp_find_descriptor (syscall_nr : Int) :
    Option tcp_kernel_descriptor :=
  tcp_descriptors.find? (fun d => d.syscall_nr = syscall_nr)

/-- struct tcp_stats (lines 65-71). -/
structure tcp_stats where
  total_checks : Nat
  fast_path_hits : Nat
  blocked_operations : Nat
  security_events : Nat
  false_positives : Nat

/-- struct tcp_kernel_state (lines 74-80), minus the host-only proc entry. -/
structure tcp_kernel_state where
  enabled : Bool
  security_level : Nat
  stats : tcp_stats

/-- State right after `tcp_kernel_init`. -/
def tcp_initial_kernel_state : tcp_kernel_state :=
  { enabled := true, security_level := 1,
    stats := { total_checks := 0, fast_path_hits := 0, blocked_operations := 0,
               security_events := 0, false_positives := 0 } }

/-- The caller identity the C code derives from `current`: whether
`current->cred->uid.val == 0` and whether the task is in a non-init
namespace. -/
structure tcp_caller where
  uid_is_root : Bool
  in_container : Bool

/-- The `current_context` computation inside `tcp_check_context`
(lines 142-160): Admin for uid 0 else User, OR Container when isolated. -/
def tcp_current_context (caller : tcp_caller) : Nat :=
  (if caller.uid_is_root then TCP_CTX_ADMIN else TCP_CTX_USER) |||
    (if caller.in_container then TCP_CTX_CONTAINER else 0)

/-- `tcp_check_context` (lines 142-160): the caller's context must intersect
the descriptor's context mask. -/
def tcp_check_context (desc : tcp_kernel_descriptor) (caller : tcp_caller) : Bool :=
  desc.context_mask &&& tcp_current_context caller ≠ 0

/-- `tcp_analyze_syscall` (lines 163-219): 0 = allow, -1 = -EPERM = deny;
the returned state carries the updated statistics. -/
def tcp_analyze_syscall (st : tcp_kernel_state) (caller : tcp_caller)
    (syscall_nr : Int) : Int × tcp_kernel_state :=
  if !st.enabled then (0, st)
  else
    let st := { st with stats := { st.stats with total_checks := st.stats.total_checks + 1 } }
    match tcp_find_descriptor syscall_nr with
    | none =>
        (0, { st with stats := { st.stats with fast_path_hits := st.stats.fast_path_hits + 1 } })
    | some desc =>
        if desc.security_flags &&& TCP_FLAG_SAFE ≠ 0 then
          (0, { st with stats := { st.stats with fast_path_hits := st.stats.fast_path_hits + 1 } })
        else if ¬ tcp_check_context desc caller then
          (-1, { st with stats := { st.stats with blocked_operations := st.stats.blocked_operations + 1 } })
        else
          let st :=
            if desc.security_flags &&& TCP_FLAG_CRITICAL ≠ 0 then
              { st with stats := { st.stats with security_events := st.stats.security_events + 1 } }
            else st
          if desc.security_flags &&& TCP_FLAG_CRITICAL ≠ 0 ∧
              2 ≤ st.security_level ∧ ¬ caller.uid_is_root then
            (-1, { st with stats := { st.stats with blocked_operations := st.stats.blocked_operations + 1 } })
          else
            let st :=
              if desc.security_flags &&& TCP_FLAG_DESTRUCTIVE ≠ 0 then
                { st with stats := { st.stats with security_events := st.stats.security_events + 1 } }
              else st
            (0, st)

end TcpKernelIntegration

/- Helper lemmas about the tcp_security validation pipeline. -/

namespace TcpSecurityModule

/-- On a cache miss, `tcp_validate_descriptor_kernel` computes the pipeline
result, stores its 0/1 collapse, and bumps the miss-path counters. -/
theorem tcp_validate_miss (kc : KernelCrypto) (elapsed ts : Nat) (s : tcp_globals)
    (buf : List Nat)
    (h : tcp_cache_lookup s.tcp_cache (tcp_descriptor_hash kc buf) = none) :
    tcp_validate_descriptor_kernel kc elapsed ts s buf =
      (tcp_compute_result kc s.ctx.hardware_features buf,
       { ctx := { s.ctx with
            validation_count := s.ctx.validation_count + 1,
            total_time_ns := s.ctx.total_time_ns + elapsed,
            security_violations := s.ctx.security_violations +
              (if tcp_compute_result kc s.ctx.hardware_features buf ≤ 0 then 1 else 0) },
         tcp_cache := (tcp_cache_store s.tcp_cache s.tcp_cache_head
            (tcp_descriptor_hash kc buf)
            (if 0 < tcp_compute_result kc s.ctx.hardware_features buf then 1 else 0) ts).1,
         tcp_cache_head := (tcp_cache_store s.tcp_cache s.tcp_cache_head
            (tcp_descriptor_hash kc buf)
            (if 0 < tcp_compute_result kc s.ctx.hardware_features buf then 1 else 0) ts).2 }) := by
  simp only [tcp_validate_descriptor_kernel]
  rw [h]

/-- On a cache hit, the cached byte is returned and only `cache_hits` moves. -/
theorem tcp_validate_hit (kc : KernelCrypto) (elapsed ts : Nat) (s : tcp_globals)
    (buf : List Nat) (v : Nat)
    (h : tcp_cache_lookup s.tcp_cache (tcp_descriptor_hash kc buf) = some v) :
    tcp_validate_descriptor_kernel kc elapsed ts s buf =
      (Int.ofNat v,
       { s with ctx := { s.ctx with cache_hits := s.ctx.cache_hits + 1 } }) := by
  simp only [tcp_validate_descriptor_kernel]
  rw [h]

theorem tcp_sgx_validation_eq_one (hw : Nat) (buf : List Nat) :
    tcp_sgx_validation hw buf = 1 := by
  unfold tcp_sgx_validation
  split <;> rfl

theorem tcp_tpm_attestation_eq_one (hw : Nat) (buf : List Nat) :
    tcp_tpm_attestation hw buf = 1 := by
  unfold tcp_tpm_attestation
  split <;> rfl

theorem tcp_ebpf_pass (buf : List Nat) (h : buf.length = 24 ∨ buf.length = 32) :
    tcp_ebpf_security_check buf = 1 := by
  unfold tcp_ebpf_security_check
  rw [if_pos h]

/-- Unrecognized length: the format check fails with -EINVAL. -/
theorem tcp_compute_result_bad_length (kc : KernelCrypto) (hw : Nat) (buf : List Nat)
    (h24 : buf.length ≠ 24) (h32 : buf.length ≠ 32) :
    tcp_compute_result kc hw buf = -22 := by
  unfold tcp_compute_result tcp_format_check
  rw [if_neg h24, if_neg h32]

/-- Quantum descriptor with version byte < 3: rejected by the format check. -/
theorem tcp_compute_result_quantum_low_version (kc : KernelCrypto) (hw : Nat)
    (buf : List Nat) (hlen : buf.length = 32)
    (hmagic : readLE32 buf 0 = TCP_MAGIC_QUANTUM) (hver : buf.getD 4 0 < 3) :
    tcp_compute_result kc hw buf = -22 := by
  have h24 : ¬ buf.length = 24 := by rw [hlen]; norm_num
  have hm : ¬ readLE32 buf 0 ≠ TCP_MAGIC_QUANTUM := fun hne => hne hmagic
  unfold tcp_compute_result tcp_format_check
  rw [if_neg h24, if_pos hlen, if_neg hm, if_pos hver]

/-- Full characterization of the pipeline on a 24-byte descriptor with the
correct magic: the checksum comparison decides -EINVAL, and after it only
the LSM gate's 0x0001 flag bit decides between -EACCES and allow. -/
theorem tcp_compute_result_classical (kc : KernelCrypto) (hw : Nat)
    (buf : List Nat) (hlen : buf.length = 24)
    (hmagic : readLE32 buf 0 = TCP_MAGIC_CLASSICAL) :
    tcp_compute_result kc hw buf =
      if tcp_hardware_crc16 kc (buf.take 22) ≠ readLE16 buf 20 then -22
      else if readLE32 buf 8 &&& 0x0001 ≠ 0 then -13
      else 1 := by
  have hlsm : tcp_lsm_security_check buf =
      if readLE32 buf 8 &&& 0x0001 ≠ 0 then 0 else 1 := by
    unfold tcp_lsm_security_check
    rw [if_pos hlen]
  have hm : ¬ readLE32 buf 0 ≠ TCP_MAGIC_CLASSICAL := fun hne => hne hmagic
  unfold tcp_compute_result tcp_format_check
  rw [if_pos hlen, if_neg hm]
  by_cases hcrc : tcp_hardware_crc16 kc (buf.take 22) ≠ readLE16 buf 20
  · rw [if_pos hcrc, if_pos hcrc]
  · rw [if_neg hcrc, if_neg hcrc]
    by_cases hbit : readLE32 buf 8 &&& 0x0001 ≠ 0
    · rw [hlsm, if_pos hbit, if_pos hbit]
      rfl
    · rw [hlsm, if_neg hbit, if_neg hbit,
        tcp_ebpf_pass buf (Or.inl hlen), tcp_sgx_validation_eq_one,
        tcp_tpm_attestation_eq_one]
      rfl

/-- If no entry in the cache carries hash `h`, the linear scan misses. -/
theorem tcp_cache_lookup_eq_none (cache : List tcp_cache_entry) (h : List Nat)
    (hall : ∀ e ∈ cache, e.descriptor_hash ≠ h) :
    tcp_cache_lookup cache h = none := by
  induction cache with
  | nil => rfl
  | cons e rest ih =>
      unfold tcp_cache_lookup
      rw [if_neg (hall e (List.mem_cons_self e rest))]
      exact ih fun x hx => hall x (List.mem_cons_of_mem e hx)

/-- Storing hash `h` into a cache that does not yet contain it makes the
next lookup of `h` hit the stored byte. -/
theorem tcp_cache_lookup_store_self (cache : List tcp_cache_entry) (head : Nat)
    (h : List Nat) (r ts : Nat)
    (hmiss : tcp_cache_lookup cache h = none) (hlt : head < cache.length) :
    tcp_cache_lookup (tcp_cache_store cache head h r ts).1 h = some r := by
  induction cache generalizing head with
  | nil => simp at hlt
  | cons e rest ih =>
      unfold tcp_cache_lookup at hmiss
      by_cases heq : e.descriptor_hash = h
      · rw [if_pos heq] at hmiss
        exact absurd hmiss (by simp)
      · rw [if_neg heq] at hmiss
        cases head with
        | zero =>
            simp only [tcp_cache_store, List.set_cons_zero]
            unfold tcp_cache_lookup
            rw [if_pos rfl]
        | succ n =>
            have hlt' : n < rest.length := by
              simpa using hlt
            have hrec := ih n hmiss hlt'
            simp only [tcp_cache_store, List.set_cons_succ] at hrec ⊢
            unfold tcp_cache_lookup
            rw [if_neg heq]
            exact hrec

/-- Every entry of the cache after a store is either old or carries the
stored result byte. -/
theorem tcp_cache_store_mem (cache : List tcp_cache_entry) (head : Nat)
    (h : List Nat) (r ts : Nat) (e : tcp_cache_entry)
    (he : e ∈ (tcp_cache_store cache head h r ts).1) :
    e ∈ cache ∨ e.validation_result = r := by
  simp only [tcp_cache_store] at he
  rcases List.mem_or_eq_of_mem_set he with h1 | h2
  · exact Or.inl h1
  · right
    rw [h2]

/-- The freshly `kcalloc`-ed cache only hits hashes equal to the all-zero
8-byte hash, so any other fingerprint misses. -/
theorem tcp_initial_cache_miss (h : List Nat) (hne : h ≠ List.replicate 8 0) :
    tcp_cache_lookup tcp_initial_cache h = none :=
  tcp_cache_lookup_eq_none _ _ (fun e he => by
    rw [List.eq_of_mem_replicate he]
    exact fun hh => hne hh.symm)

theorem tcp_initial_cache_length : tcp_initial_cache.length = TCP_CACHE_SIZE := by
  simp [tcp_initial_cache]

/-- Evaluating the same buffer twice starting from a fresh module state
(with a fingerprint distinct from the zeroed slots): the first call is a
miss returning the pipeline result, the second is a hit returning the
stored 0/1 collapse, `validation_count` moves only on the first call and
`cache_hits` only on the second. -/
theorem tcp_validate_twice_from_init (kc : KernelCrypto) (hw e1 t1 e2 t2 : Nat)
    (buf : List Nat)
    (hne : tcp_descriptor_hash kc buf ≠ List.replicate 8 0) :
    (tcp_validate_descriptor_kernel kc e1 t1 (tcp_initial_globals hw) buf).1
        = tcp_compute_result kc hw buf ∧
    (tcp_validate_descriptor_kernel kc e2 t2
        (tcp_validate_descriptor_kernel kc e1 t1 (tcp_initial_globals hw) buf).2 buf).1
        = Int.ofNat (if 0 < tcp_compute_result kc hw buf then 1 else 0) ∧
    (tcp_validate_descriptor_kernel kc e1 t1 (tcp_initial_globals hw) buf).2.ctx.validation_count = 1 ∧
    (tcp_validate_descriptor_kernel kc e2 t2
        (tcp_validate_descriptor_kernel kc e1 t1 (tcp_initial_globals hw) buf).2 buf).2.ctx.validation_count = 1 ∧
    (tcp_validate_descriptor_kernel kc e1 t1 (tcp_initial_globals hw) buf).2.ctx.cache_hits = 0 ∧
    (tcp_validate_descriptor_kernel kc e2 t2
        (tcp_validate_descriptor_kernel kc e1 t1 (tcp_initial_globals hw) buf).2 buf).2.ctx.cache_hits = 1 := by
  have hmiss : tcp_cache_lookup (tcp_initial_globals hw).tcp_cache
      (tcp_descriptor_hash kc buf) = none := tcp_initial_cache_miss _ hne
  have h1 := tcp_validate_miss kc e1 t1 (tcp_initial_globals hw) buf hmiss
  have hhit : tcp_cache_lookup
      ((tcp_validate_descriptor_kernel kc e1 t1 (tcp_initial_globals hw) buf).2).tcp_cache
      (tcp_descriptor_hash kc buf)
      = some (if 0 < tcp_compute_result kc hw buf then 1 else 0) := by
    rw [h1]
    exact tcp_cache_lookup_store_self _ _ _ _ _ hmiss
      (by norm_num [tcp_initial_globals, tcp_initial_cache, TCP_CACHE_SIZE])
  have h2 := tcp_validate_hit kc e2 t2 _ buf _ hhit
  rw [h2, h1]
  exact ⟨rfl, rfl, rfl, rfl, rfl, rfl⟩

/-- Setting the slot right after a prefix replaces the element there. -/
theorem list_set_append_length {α : Type} (pre : List α) (q : α) (post : List α)
    (x : α) : (pre ++ q :: post).set pre.length x = pre ++ x :: post := by
  induction pre with
  | nil => rfl
  | cons a pre ih =>
      simp only [List.cons_append, List.length_cons, List.set_cons_succ, ih]

theorem tcp_store_sequence_append (xs ys : List (List Nat × Nat))
    (s : List tcp_cache_entry × Nat) :
    tcp_store_sequence (xs ++ ys) s
      = tcp_store_sequence ys (tcp_store_sequence xs s) := by
  induction xs generalizing s with
  | nil => rfl
  | cons p xs ih =>
      simp only [List.cons_append, tcp_store_sequence]
      exact ih _

/-- Storing a sequence of pairs that fits in the free suffix `post` (the
ring head sitting right after the already-written prefix `pre`) overwrites
the suffix slot by slot and moves the head modulo the cache size. -/
theorem tcp_store_sequence_fill (ps : List (List Nat × Nat)) :
    ∀ (pre post : List tcp_cache_entry), post ≠ [] → ps.length ≤ post.length →
    tcp_store_sequence ps (pre ++ post, pre.length) =
      (pre ++ ps.map tcp_seq_entry ++ post.drop ps.length,
       (pre.length + ps.length) % (pre.length + post.length)) := by
  induction ps with
  | nil =>
      intro pre post hne _
      have hlt : pre.length < pre.length + post.length :=
        Nat.lt_add_of_pos_right (List.length_pos.mpr hne)
      simp only [tcp_store_sequence, List.map_nil, List.append_nil,
        List.drop_zero, List.length_nil, Nat.add_zero, Nat.mod_eq_of_lt hlt]
  | cons p ps ih =>
      intro pre post hne hle
      cases post with
      | nil => exact absurd rfl hne
      | cons q post' =>
          have hstore : tcp_cache_store (pre ++ q :: post') pre.length p.1 p.2 0
              = (pre ++ tcp_seq_entry p :: post',
                 (pre.length + 1) % (pre.length + (post'.length + 1))) := by
            unfold tcp_cache_store tcp_seq_entry
            rw [list_set_append_length, List.length_append, List.length_cons]
          rw [show tcp_store_sequence (p :: ps) (pre ++ q :: post', pre.length)
              = tcp_store_sequence ps
                  (tcp_cache_store (pre ++ q :: post') pre.length p.1 p.2 0) from rfl,
            hstore]
          cases post' with
          | nil =>
              have hps : ps = [] := by
                have hl : ps.length = 0 := by
                  simp only [List.length_cons, List.length_nil] at hle
                  omega
                exact List.eq_nil_of_length_eq_zero hl
              subst hps
              simp [tcp_store_sequence, Nat.mod_self]
          | cons q' post'' =>
              have hmod : (pre.length + 1) % (pre.length + ((q' :: post'').length + 1))
                  = pre.length + 1 :=
                Nat.mod_eq_of_lt (by simp only [List.length_cons]; omega)
              rw [hmod]
              have hle' : ps.length ≤ (q' :: post'').length := by
                simp only [List.length_cons] at hle ⊢
                omega
              have hstate : pre ++ tcp_seq_entry p :: q' :: post''
                  = (pre ++ [tcp_seq_entry p]) ++ q' :: post'' := by simp
              have hpre' : pre.length + 1 = (pre ++ [tcp_seq_entry p]).length := by
                simp
              rw [hstate, hpre',
                ih (pre ++ [tcp_seq_entry p]) (q' :: post'') (by simp) hle']
              congr 1
              · simp [List.append_assoc]
              · congr 1 <;> simp <;> omega

/-- Lookup over the image of `tcp_seq_entry` on a list with pairwise
distinct fingerprints finds each pair's stored decision. -/
theorem tcp_cache_lookup_map_pairwise (l : List (List Nat × Nat))
    (hdist : l.Pairwise (fun a b => a.1 ≠ b.1)) :
    ∀ p ∈ l, tcp_cache_lookup (l.map tcp_seq_entry) p.1 = some p.2 := by
  induction l with
  | nil =>
      intro p hp
      cases hp
  | cons a l ih =>
      intro p hp
      rcases List.mem_cons.mp hp with rfl | hmem
      · rw [List.map_cons]
        unfold tcp_cache_lookup tcp_seq_entry
        rw [if_pos rfl]
      · have hne : ¬ (tcp_seq_entry a).descriptor_hash = p.1 :=
          (List.pairwise_cons.mp hdist).1 p hmem
        rw [List.map_cons]
        unfold tcp_cache_lookup
        rw [if_neg hne]
        exact ih (List.pairwise_cons.mp hdist).2 p hmem

end TcpSecurityModule

namespace TcpKernelIntegration

/-- `tcp_analyze_syscall` on the module-load entry for a non-privileged,
non-isolated caller, fully computed: the context check (Admin|Kernel mask
against a User-only context) denies before the critical-operation block is
ever reached, for every security level. -/
theorem tcp_analyze_init_module_unpriv (lvl : Nat) (stats : tcp_stats) :
    tcp_analyze_syscall ⟨true, lvl, stats⟩ ⟨false, false⟩ NR_init_module =
      (-1, ⟨true, lvl,
        { stats with total_checks := stats.total_checks + 1,
                     blocked_operations := stats.blocked_operations + 1 }⟩) := rfl

end TcpKernelIntegration

open TcpSecurityModule TcpKernelIntegration

/-- Claim C9: with `total_evaluations` (validation_count) equal to zero the
statistics snapshot derives `avg_time = 0` and `cache_hit_rate = 0`; the
divisions in `tcp_proc_show` are guarded by `validation_count > 0`, so no
division by zero is performed. -/
theorem C9_zero_count_snapshot (c : tcp_validation_context)
    (h : c.validation_count = 0) :
    tcp_proc_avg_time_ns c = 0 ∧ tcp_proc_cache_hit_rate c = 0 := by
  unfold tcp_proc_avg_time_ns tcp_proc_cache_hit_rate
  rw [h]
  norm_num

theorem C9_zero_count_snapshot_witness :
    (tcp_initial_globals 7).ctx.validation_count = 0 ∧
    tcp_proc_avg_time_ns (tcp_initial_globals 7).ctx = 0 ∧
    tcp_proc_cache_hit_rate (tcp_initial_globals 7).ctx = 0 :=
  ⟨rfl, C9_zero_count_snapshot (tcp_initial_globals 7).ctx rfl⟩

/-- Claim C6 (amended): a 32-byte buffer with the Quantum magic and a
version byte strictly below 3 is rejected as malformed (-EINVAL), whatever
the rest of its fields, provided its fingerprint is not already in the
decision cache; on a cache hit the cached 0/1 decision is returned instead
(see the counterexample). -/
theorem C6_quantum_low_version_rejected (kc : KernelCrypto) (elapsed ts : Nat)
    (s : tcp_globals) (buf : List Nat)
    (hmiss : tcp_cache_lookup s.tcp_cache (tcp_descriptor_hash kc buf) = none)
    (hlen : buf.length = 32)
    (hmagic : readLE32 buf 0 = TCP_MAGIC_QUANTUM)
    (hver : buf.getD 4 0 < 3) :
    (tcp_validate_descriptor_kernel kc elapsed ts s buf).1 = -22 := by
  rw [tcp_validate_miss kc elapsed ts s buf hmiss]
  exact tcp_compute_result_quantum_low_version kc s.ctx.hardware_features buf
    hlen hmagic hver

/-- A 32-byte quantum-magic descriptor with version byte 2 and everything
else zeroed. -/
def c6_buffer : List Nat :=
  [84, 67, 80, 81, 2, 0, 0, 0, 0, 0, 0, 0, 0, 0, 0, 0, 0, 0, 0,
   0, 0, 0, 0, 0, 0, 0, 0, 0, 0, 0, 0, 0]

theorem C6_quantum_low_version_rejected_witness :
    tcp_cache_lookup (tcp_initial_globals 7).tcp_cache
        (tcp_descriptor_hash fallback_crypto c6_buffer) = none ∧
    c6_buffer.length = 32 ∧
    readLE32 c6_buffer 0 = TCP_MAGIC_QUANTUM ∧
    c6_buffer.getD 4 0 < 3 ∧
    (tcp_validate_descriptor_kernel fallback_crypto 5 100
        (tcp_initial_globals 7) c6_buffer).1 = -22 :=
  ⟨tcp_initial_cache_miss _ (by decide), by decide, by decide, by decide,
   C6_quantum_low_version_rejected fallback_crypto 5 100 (tcp_initial_globals 7)
     c6_buffer (tcp_initial_cache_miss _ (by decide)) (by decide) (by decide) (by decide)⟩

/-- Claim C6 counterexample: the claim as stated has no cache proviso, but
evaluating the same version-2 Quantum buffer a second time returns the
cached plain deny 0, not MalformedDescriptor — the cache lookup precedes
the version check just as it precedes the length check. -/
theorem C6_quantum_low_version_counterexample :
    c6_buffer.length = 32 ∧
    readLE32 c6_buffer 0 = TCP_MAGIC_QUANTUM ∧
    c6_buffer.getD 4 0 < 3 ∧
    (tcp_validate_descriptor_kernel fallback_crypto 6 200
        ((tcp_validate_descriptor_kernel fallback_crypto 5 100
            (tcp_initial_globals 7) c6_buffer).2) c6_buffer).1 = 0 ∧
    ((0 : Int) ≠ -22) := by
  have h := tcp_validate_twice_from_init fallback_crypto 7 5 100 6 200 c6_buffer
    (by decide)
  refine ⟨by decide, by decide, by decide, ?_, by decide⟩
  rw [h.2.1]
  decide

/-- Claim C4 (amended): a buffer whose length is neither 24 nor 32 is
rejected with MalformedDescriptor (-EINVAL) when its fingerprint misses the
cache; a hit instead returns the cached 0/1 byte (see the counterexample). -/
theorem C4_bad_length_rejected (kc : KernelCrypto) (elapsed ts : Nat)
    (s : tcp_globals) (buf : List Nat)
    (hmiss : tcp_cache_lookup s.tcp_cache (tcp_descriptor_hash kc buf) = none)
    (h24 : buf.length ≠ 24) (h32 : buf.length ≠ 32) :
    (tcp_validate_descriptor_kernel kc elapsed ts s buf).1 = -22 := by
  rw [tcp_validate_miss kc elapsed ts s buf hmiss]
  exact tcp_compute_result_bad_length kc s.ctx.hardware_features buf h24 h32

theorem C4_bad_length_rejected_witness :
    tcp_cache_lookup (tcp_initial_globals 7).tcp_cache
        (tcp_descriptor_hash fallback_crypto [2, 2]) = none ∧
    ([2, 2] : List Nat).length ≠ 24 ∧ ([2, 2] : List Nat).length ≠ 32 ∧
    (tcp_validate_descriptor_kernel fallback_crypto 5 100
        (tcp_initial_globals 7) [2, 2]).1 = -22 :=
  ⟨tcp_initial_cache_miss _ (by decide), by decide, by decide,
   C4_bad_length_rejected fallback_crypto 5 100 (tcp_initial_globals 7) [2, 2]
     (tcp_initial_cache_miss _ (by decide)) (by decide) (by decide)⟩

/-- Claim C4 counterexample: the claim as stated quantifies over every byte
buffer without a cache proviso, but evaluating the same bad-length buffer a
second time returns the cached plain deny 0, not MalformedDescriptor. -/
theorem C4_bad_length_counterexample :
    ([2, 2] : List Nat).length ≠ 24 ∧ ([2, 2] : List Nat).length ≠ 32 ∧
    (tcp_validate_descriptor_kernel fallback_crypto 6 200
        ((tcp_validate_descriptor_kernel fallback_crypto 5 100
            (tcp_initial_globals 7) [2, 2]).2) [2, 2]).1 = 0 ∧
    ((0 : Int) ≠ -22) := by
  have h := tcp_validate_twice_from_init fallback_crypto 7 5 100 6 200 [2, 2]
    (by decide)
  refine ⟨by decide, by decide, ?_, by decide⟩
  rw [h.2.1]
  decide

/-- Claim C7: an operation identifier absent from the registry is allowed on
the fast path: result 0, `fast_path_hits` and `total_checks` up by one, and
no other counter moves — for every caller and security level. -/
theorem C7_unknown_op_allowed (st : tcp_kernel_state) (caller : tcp_caller)
    (nr : Int) (hen : st.enabled = true)
    (hfind : tcp_find_descriptor nr = none) :
    (tcp_analyze_syscall st caller nr).1 = 0 ∧
    (tcp_analyze_syscall st caller nr).2.stats.fast_path_hits
      = st.stats.fast_path_hits + 1 ∧
    (tcp_analyze_syscall st caller nr).2.stats.total_checks
      = st.stats.total_checks + 1 ∧
    (tcp_analyze_syscall st caller nr).2.stats.blocked_operations
      = st.stats.blocked_operations ∧
    (tcp_analyze_syscall st caller nr).2.stats.security_events
      = st.stats.security_events ∧
    (tcp_analyze_syscall st caller nr).2.stats.false_positives
      = st.stats.false_positives := by
  obtain ⟨en, lvl, stats⟩ := st
  have hen' : en = true := hen
  subst hen'
  simp [tcp_analyze_syscall, hfind]

theorem C7_unknown_op_allowed_witness :
    tcp_initial_kernel_state.enabled = true ∧
    tcp_find_descriptor 9999 = none ∧
    ((tcp_analyze_syscall tcp_initial_kernel_state ⟨false, false⟩ 9999).1 = 0 ∧
     (tcp_analyze_syscall tcp_initial_kernel_state ⟨false, false⟩ 9999).2.stats.fast_path_hits
       = tcp_initial_kernel_state.stats.fast_path_hits + 1 ∧
     (tcp_analyze_syscall tcp_initial_kernel_state ⟨false, false⟩ 9999).2.stats.total_checks
       = tcp_initial_kernel_state.stats.total_checks + 1 ∧
     (tcp_analyze_syscall tcp_initial_kernel_state ⟨false, false⟩ 9999).2.stats.blocked_operations
       = tcp_initial_kernel_state.stats.blocked_operations ∧
     (tcp_analyze_syscall tcp_initial_kernel_state ⟨false, false⟩ 9999).2.stats.security_events
       = tcp_initial_kernel_state.stats.security_events ∧
     (tcp_analyze_syscall tcp_initial_kernel_state ⟨false, false⟩ 9999).2.stats.false_positives
       = tcp_initial_kernel_state.stats.false_positives) :=
  ⟨rfl, rfl,
   C7_unknown_op_allowed tcp_initial_kernel_state ⟨false, false⟩ 9999 rfl rfl⟩

/-- Claim C3 (amended): for the module-load descriptor (Critical, Kernel and
Destructive flags, Admin|Kernel context mask, root privilege) called by a
non-privileged, non-isolated caller, `tcp_analyze_syscall` denies (-EPERM)
at every security level — including 0 — because the caller's User-only
context has empty intersection with the Admin|Kernel mask and the context
check precedes the critical-escalation check; no security event is
recorded on this path. -/
theorem C3_module_load_context_denied (st : tcp_kernel_state)
    (hen : st.enabled = true) :
    (tcp_analyze_syscall st ⟨false, false⟩ NR_init_module).1 = -1 ∧
    (tcp_analyze_syscall st ⟨false, false⟩ NR_init_module).2.stats.security_events
      = st.stats.security_events ∧
    (tcp_analyze_syscall st ⟨false, false⟩ NR_init_module).2.stats.blocked_operations
      = st.stats.blocked_operations + 1 := by
  obtain ⟨en, lvl, stats⟩ := st
  have hen' : en = true := hen
  subst hen'
  rw [tcp_analyze_init_module_unpriv lvl stats]
  exact ⟨rfl, rfl, rfl⟩

theorem C3_module_load_context_denied_witness :
    ({ tcp_initial_kernel_state with security_level := 2 } : tcp_kernel_state).enabled
        = true ∧
    ((tcp_analyze_syscall { tcp_initial_kernel_state with security_level := 2 }
        ⟨false, false⟩ NR_init_module).1 = -1 ∧
     (tcp_analyze_syscall { tcp_initial_kernel_state with security_level := 2 }
        ⟨false, false⟩ NR_init_module).2.stats.security_events
       = ({ tcp_initial_kernel_state with security_level := 2 } : tcp_kernel_state).stats.security_events ∧
     (tcp_analyze_syscall { tcp_initial_kernel_state with security_level := 2 }
        ⟨false, false⟩ NR_init_module).2.stats.blocked_operations
       = ({ tcp_initial_kernel_state with security_level := 2 } : tcp_kernel_state).stats.blocked_operations + 1) :=
  ⟨rfl, C3_module_load_context_denied _ rfl⟩

/-- Claim C3 counterexample: at security_level = 0 the same call does NOT
return Allow and does NOT record a security event — it is denied by the
context check with no event, contradicting the claim's second half. -/
theorem C3_module_load_counterexample :
    (tcp_analyze_syscall { tcp_initial_kernel_state with security_level := 0 }
        ⟨false, false⟩ NR_init_module).1 = -1 ∧
    (tcp_analyze_syscall { tcp_initial_kernel_state with security_level := 0 }
        ⟨false, false⟩ NR_init_module).1 ≠ 0 ∧
    (tcp_analyze_syscall { tcp_initial_kernel_state with security_level := 0 }
        ⟨false, false⟩ NR_init_module).2.stats.security_events = 0 :=
  ⟨rfl, by decide, rfl⟩

/-- Claim C1 (amended): the policy (LSM) gate denies, with -EACCES from the
pipeline, exactly the 24-byte Classical descriptors whose flag bit 0x0001
is set — the low bit, which the gate itself labels DESTRUCTIVE, i.e. the
first bit of the Safe, Destructive, ... ordering, not the second; the
flags of 32-byte Quantum descriptors are never inspected by the gate, which
returns allow for every non-24-byte buffer. -/
theorem C1_policy_gate_denies (kc : KernelCrypto) (elapsed ts : Nat)
    (s : tcp_globals) (buf : List Nat)
    (hmiss : tcp_cache_lookup s.tcp_cache (tcp_descriptor_hash kc buf) = none)
    (hlen : buf.length = 24)
    (hmagic : readLE32 buf 0 = TCP_MAGIC_CLASSICAL)
    (hcrc : tcp_hardware_crc16 kc (buf.take 22) = readLE16 buf 20)
    (hbit : readLE32 buf 8 &&& 0x0001 ≠ 0) :
    (tcp_validate_descriptor_kernel kc elapsed ts s buf).1 = -13 ∧
    (∀ q : List Nat, q.length = 32 → tcp_lsm_security_check q = 1) := by
  constructor
  · rw [tcp_validate_miss kc elapsed ts s buf hmiss,
      tcp_compute_result_classical kc s.ctx.hardware_features buf hlen hmagic,
      if_neg (fun hne => hne hcrc), if_pos hbit]
  · intro q hq
    unfold tcp_lsm_security_check
    rw [if_neg (by rw [hq]; norm_num)]

/-- A 24-byte Classical descriptor with flag bit 0x0001 set and a checksum
valid for the byte-sum fallback CRC. -/
def c1_flag1_descriptor : List Nat :=
  [2, 84, 67, 80, 0, 0, 0, 0, 1, 0, 0, 0, 21, 0, 0, 0, 0, 0, 0, 0, 0, 1, 0, 0]

theorem C1_policy_gate_denies_witness :
    tcp_cache_lookup (tcp_initial_globals 7).tcp_cache
        (tcp_descriptor_hash fallback_crypto c1_flag1_descriptor) = none ∧
    c1_flag1_descriptor.length = 24 ∧
    readLE32 c1_flag1_descriptor 0 = TCP_MAGIC_CLASSICAL ∧
    tcp_hardware_crc16 fallback_crypto (c1_flag1_descriptor.take 22)
      = readLE16 c1_flag1_descriptor 20 ∧
    readLE32 c1_flag1_descriptor 8 &&& 0x0001 ≠ 0 ∧
    ((tcp_validate_descriptor_kernel fallback_crypto 5 100
        (tcp_initial_globals 7) c1_flag1_descriptor).1 = -13 ∧
     (∀ q : List Nat, q.length = 32 → tcp_lsm_security_check q = 1)) :=
  ⟨tcp_initial_cache_miss _ (by decide), by decide, by decide, by decide, by decide,
   C1_policy_gate_denies fallback_crypto 5 100 (tcp_initial_globals 7)
     c1_flag1_descriptor (tcp_initial_cache_miss _ (by decide))
     (by decide) (by decide) (by decide) (by decide)⟩

/-- A 24-byte Classical descriptor whose flags carry only bit 0x0002 — the
Destructive bit under the registry's Safe, Destructive, ... ordering — with
a checksum valid for the byte-sum fallback CRC. -/
def c1_flag2_descriptor : List Nat :=
  [2, 84, 67, 80, 0, 0, 0, 0, 2, 0, 0, 0, 20, 0, 0, 0, 0, 0, 0, 0, 0, 1, 0, 0]

/-- A 32-byte Quantum descriptor (version 3) whose flags carry bit 0x0002. -/
def c1_quantum_destr_descriptor : List Nat :=
  [84, 67, 80, 81, 3, 0, 0, 0, 0, 2, 0, 0, 0, 0, 0, 0, 0, 0, 0,
   0, 0, 0, 0, 0, 0, 0, 0, 0, 0, 0, 0, 0]

/-- Claim C1 counterexample: a well-formed 24-byte Classical descriptor with
the Destructive bit (0x0002, the second bit of the claimed ordering) set is
allowed by the whole pipeline (result 1), and so is a 32-byte Quantum
descriptor with the same bit set: the policy gate does not deny either. -/
theorem C1_policy_gate_counterexample :
    readLE32 c1_flag2_descriptor 8 &&& 0x0002 ≠ 0 ∧
    c1_flag2_descriptor.length = 24 ∧
    (tcp_validate_descriptor_kernel fallback_crypto 5 100
        (tcp_initial_globals 7) c1_flag2_descriptor).1 = 1 ∧
    readLE32 c1_quantum_destr_descriptor 9 &&& 0x0002 ≠ 0 ∧
    c1_quantum_destr_descriptor.length = 32 ∧
    (tcp_validate_descriptor_kernel fallback_crypto 5 100
        (tcp_initial_globals 7) c1_quantum_destr_descriptor).1 = 1 := by
  refine ⟨by decide, by decide, ?_, by decide, by decide, ?_⟩
  · rw [tcp_validate_miss fallback_crypto 5 100 (tcp_initial_globals 7)
      c1_flag2_descriptor (tcp_initial_cache_miss _ (by decide))]
    decide
  · rw [tcp_validate_miss fallback_crypto 5 100 (tcp_initial_globals 7)
      c1_quantum_destr_descriptor (tcp_initial_cache_miss _ (by decide))]
    decide

/-- Claim C5 (amended): for every 24-byte buffer with the Classical magic
whose fingerprint misses the cache, the validator recomputes the checksum
over the first 22 bytes and compares it with the stored checksum field,
which the packed struct overlay reads at byte offsets 20-21 — inside the
checksummed prefix, not after it; buffer bytes 22-23 are never read — and
returns -EINVAL exactly when the two differ. -/
theorem C5_checksum_mismatch_iff (kc : KernelCrypto) (elapsed ts : Nat)
    (s : tcp_globals) (buf : List Nat)
    (hmiss : tcp_cache_lookup s.tcp_cache (tcp_descriptor_hash kc buf) = none)
    (hlen : buf.length = 24)
    (hmagic : readLE32 buf 0 = TCP_MAGIC_CLASSICAL) :
    (tcp_validate_descriptor_kernel kc elapsed ts s buf).1 = -22 ↔
      tcp_hardware_crc16 kc (buf.take 22) ≠ readLE16 buf 20 := by
  rw [tcp_validate_miss kc elapsed ts s buf hmiss,
    tcp_compute_result_classical kc s.ctx.hardware_features buf hlen hmagic]
  by_cases hcrc : tcp_hardware_crc16 kc (buf.take 22) ≠ readLE16 buf 20
  · rw [if_pos hcrc]
    exact ⟨fun _ => hcrc, fun _ => rfl⟩
  · rw [if_neg hcrc]
    constructor
    · intro h
      by_cases hbit : readLE32 buf 8 &&& 0x0001 ≠ 0
      · rw [if_pos hbit] at h
        norm_num at h
      · rw [if_neg hbit] at h
        norm_num at h
    · intro h
      exact absurd h hcrc

/-- A well-formed 24-byte Classical descriptor (valid checksum for the
byte-sum fallback CRC, flags clear). -/
def c5_valid_descriptor : List Nat :=
  [2, 84, 67, 80, 22, 0, 0, 0, 0, 0, 0, 0, 0, 0, 0, 0, 0, 0, 0, 0, 9, 1, 0, 0]

theorem C5_checksum_mismatch_iff_witness :
    tcp_cache_lookup (tcp_initial_globals 7).tcp_cache
        (tcp_descriptor_hash fallback_crypto c5_valid_descriptor) = none ∧
    c5_valid_descriptor.length = 24 ∧
    readLE32 c5_valid_descriptor 0 = TCP_MAGIC_CLASSICAL ∧
    ((tcp_validate_descriptor_kernel fallback_crypto 5 100
        (tcp_initial_globals 7) c5_valid_descriptor).1 = -22 ↔
      tcp_hardware_crc16 fallback_crypto (c5_valid_descriptor.take 22)
        ≠ readLE16 c5_valid_descriptor 20) :=
  ⟨tcp_initial_cache_miss _ (by decide), by decide, by decide,
   C5_checksum_mismatch_iff fallback_crypto 5 100 (tcp_initial_globals 7)
     c5_valid_descriptor (tcp_initial_cache_miss _ (by decide))
     (by decide) (by decide)⟩

/-- `c5_valid_descriptor` with byte 23 — the second byte of the trailing
16-bit field the claim calls the checksum — corrupted from 0 to 7. -/
def c5_corrupted_descriptor : List Nat :=
  [2, 84, 67, 80, 22, 0, 0, 0, 0, 0, 0, 0, 0, 0, 0, 0, 0, 0, 0, 0, 9, 1, 0, 7]

/-- Claim C5 counterexample: corrupting a byte of the trailing checksum
field (byte 23) of a well-formed Classical descriptor is NOT rejected with
IntegrityViolation — the descriptor still validates to allow (1) — because
the stored checksum is read at offsets 20-21 and bytes 22-23 are ignored. -/
theorem C5_checksum_counterexample :
    c5_corrupted_descriptor = c5_valid_descriptor.set 23 7 ∧
    c5_corrupted_descriptor.getD 23 0 ≠ c5_valid_descriptor.getD 23 0 ∧
    c5_corrupted_descriptor.length = 24 ∧
    (tcp_validate_descriptor_kernel fallback_crypto 5 100
        (tcp_initial_globals 7) c5_valid_descriptor).1 = 1 ∧
    (tcp_validate_descriptor_kernel fallback_crypto 5 100
        (tcp_initial_globals 7) c5_corrupted_descriptor).1 = 1 := by
  refine ⟨by decide, by decide, by decide, ?_, ?_⟩
  · rw [tcp_validate_miss fallback_crypto 5 100 (tcp_initial_globals 7)
      c5_valid_descriptor (tcp_initial_cache_miss _ (by decide))]
    decide
  · rw [tcp_validate_miss fallback_crypto 5 100 (tcp_initial_globals 7)
      c5_corrupted_descriptor (tcp_initial_cache_miss _ (by decide))]
    decide

/-- Claim C2 (amended): evaluating the identical buffer twice from a
reachable state (cache at its fixed size, ring head in range) whose cache
does not yet hold the buffer's fingerprint: the second call is a cache hit
returning the 0/1 collapse of the first call's result — identical to the
first decision only when the first call allowed; `cache_hits` rises by
exactly one on the second call only, and `total_evaluations`
(validation_count) rises by exactly one on the first call only, because a
cache hit returns before the statistics block. -/
theorem C2_second_call_hits (kc : KernelCrypto) (e1 t1 e2 t2 : Nat)
    (s : tcp_globals) (buf : List Nat)
    (hmiss : tcp_cache_lookup s.tcp_cache (tcp_descriptor_hash kc buf) = none)
    (hlen : s.tcp_cache.length = TCP_CACHE_SIZE)
    (hhead : s.tcp_cache_head < TCP_CACHE_SIZE) :
    (tcp_validate_descriptor_kernel kc e2 t2
        (tcp_validate_descriptor_kernel kc e1 t1 s buf).2 buf).1
      = Int.ofNat (if 0 < (tcp_validate_descriptor_kernel kc e1 t1 s buf).1
          then 1 else 0) ∧
    (tcp_validate_descriptor_kernel kc e1 t1 s buf).2.ctx.cache_hits
      = s.ctx.cache_hits ∧
    (tcp_validate_descriptor_kernel kc e2 t2
        (tcp_validate_descriptor_kernel kc e1 t1 s buf).2 buf).2.ctx.cache_hits
      = s.ctx.cache_hits + 1 ∧
    (tcp_validate_descriptor_kernel kc e1 t1 s buf).2.ctx.validation_count
      = s.ctx.validation_count + 1 ∧
    (tcp_validate_descriptor_kernel kc e2 t2
        (tcp_validate_descriptor_kernel kc e1 t1 s buf).2 buf).2.ctx.validation_count
      = s.ctx.validation_count + 1 := by
  have h1 := tcp_validate_miss kc e1 t1 s buf hmiss
  have hhit : tcp_cache_lookup
      ((tcp_validate_descriptor_kernel kc e1 t1 s buf).2).tcp_cache
      (tcp_descriptor_hash kc buf)
      = some (if 0 < tcp_compute_result kc s.ctx.hardware_features buf
          then 1 else 0) := by
    rw [h1]
    exact tcp_cache_lookup_store_self _ _ _ _ _ hmiss (by rw [hlen]; exact hhead)
  have h2 := tcp_validate_hit kc e2 t2 _ buf _ hhit
  rw [h2, h1]
  exact ⟨rfl, rfl, rfl, rfl, rfl⟩

theorem C2_second_call_hits_witness :
    tcp_cache_lookup (tcp_initial_globals 7).tcp_cache
        (tcp_descriptor_hash fallback_crypto [1]) = none ∧
    (tcp_initial_globals 7).tcp_cache.length = TCP_CACHE_SIZE ∧
    (tcp_initial_globals 7).tcp_cache_head < TCP_CACHE_SIZE ∧
    ((tcp_validate_descriptor_kernel fallback_crypto 6 200
        (tcp_validate_descriptor_kernel fallback_crypto 5 100
          (tcp_initial_globals 7) [1]).2 [1]).1
      = Int.ofNat (if 0 < (tcp_validate_descriptor_kernel fallback_crypto 5 100
          (tcp_initial_globals 7) [1]).1 then 1 else 0) ∧
     (tcp_validate_descriptor_kernel fallback_crypto 5 100
        (tcp_initial_globals 7) [1]).2.ctx.cache_hits
       = (tcp_initial_globals 7).ctx.cache_hits ∧
     (tcp_validate_descriptor_kernel fallback_crypto 6 200
        (tcp_validate_descriptor_kernel fallback_crypto 5 100
          (tcp_initial_globals 7) [1]).2 [1]).2.ctx.cache_hits
       = (tcp_initial_globals 7).ctx.cache_hits + 1 ∧
     (tcp_validate_descriptor_kernel fallback_crypto 5 100
        (tcp_initial_globals 7) [1]).2.ctx.validation_count
       = (tcp_initial_globals 7).ctx.validation_count + 1 ∧
     (tcp_validate_descriptor_kernel fallback_crypto 6 200
        (tcp_validate_descriptor_kernel fallback_crypto 5 100
          (tcp_initial_globals 7) [1]).2 [1]).2.ctx.validation_count
       = (tcp_initial_globals 7).ctx.validation_count + 1) :=
  ⟨tcp_initial_cache_miss _ (by decide),
   by norm_num [tcp_initial_globals, tcp_initial_cache],
   by norm_num [tcp_initial_globals, TCP_CACHE_SIZE],
   C2_second_call_hits fallback_crypto 5 100 6 200 (tcp_initial_globals 7) [1]
     (tcp_initial_cache_miss _ (by decide))
     (by norm_num [tcp_initial_globals, tcp_initial_cache])
     (by norm_num [tcp_initial_globals, TCP_CACHE_SIZE])⟩

/-- Claim C2 counterexample: evaluating the buffer [1] twice from the fresh
state, the first call returns -EINVAL while the second returns 0 — the two
decisions are NOT identical — and `validation_count` is 1 after both calls,
so `total_evaluations` did not increase by 1 on the second call. -/
theorem C2_idempotence_counterexample :
    (tcp_validate_descriptor_kernel fallback_crypto 5 100
        (tcp_initial_globals 7) [1]).1 = -22 ∧
    (tcp_validate_descriptor_kernel fallback_crypto 6 200
        (tcp_validate_descriptor_kernel fallback_crypto 5 100
          (tcp_initial_globals 7) [1]).2 [1]).1 = 0 ∧
    (tcp_validate_descriptor_kernel fallback_crypto 6 200
        (tcp_validate_descriptor_kernel fallback_crypto 5 100
          (tcp_initial_globals 7) [1]).2 [1]).1
      ≠ (tcp_validate_descriptor_kernel fallback_crypto 5 100
          (tcp_initial_globals 7) [1]).1 ∧
    (tcp_validate_descriptor_kernel fallback_crypto 5 100
        (tcp_initial_globals 7) [1]).2.ctx.validation_count = 1 ∧
    (tcp_validate_descriptor_kernel fallback_crypto 6 200
        (tcp_validate_descriptor_kernel fallback_crypto 5 100
          (tcp_initial_globals 7) [1]).2 [1]).2.ctx.validation_count = 1 := by
  have h := tcp_validate_twice_from_init fallback_crypto 7 5 100 6 200 [1]
    (by decide)
  exact ⟨by rw [h.1]; decide, by rw [h.2.1]; decide,
    by rw [h.2.1, h.1]; decide, h.2.2.1, h.2.2.2.1⟩

/-- Claim C10: decision-cache entries only ever carry the bytes 0 or 1 (the
store site collapses the result via `result > 0 ? 1 : 0`), so a buffer whose
first evaluation returned a negative typed error (-EINVAL or -EACCES) is,
on a later evaluation that hits the cache, reported as the plain deny 0
rather than as the original error value. -/
theorem C10_cache_collapses_errors (kc : KernelCrypto) (e1 t1 e2 t2 : Nat)
    (s : tcp_globals) (buf : List Nat)
    (hmiss : tcp_cache_lookup s.tcp_cache (tcp_descriptor_hash kc buf) = none)
    (hlen : s.tcp_cache.length = TCP_CACHE_SIZE)
    (hhead : s.tcp_cache_head < TCP_CACHE_SIZE)
    (hinv : ∀ e ∈ s.tcp_cache, e.validation_result = 0 ∨ e.validation_result = 1)
    (hneg : (tcp_validate_descriptor_kernel kc e1 t1 s buf).1 < 0) :
    (∀ e ∈ (tcp_validate_descriptor_kernel kc e1 t1 s buf).2.tcp_cache,
      e.validation_result = 0 ∨ e.validation_result = 1) ∧
    (tcp_validate_descriptor_kernel kc e2 t2
        (tcp_validate_descriptor_kernel kc e1 t1 s buf).2 buf).1 = 0 := by
  have h1 := tcp_validate_miss kc e1 t1 s buf hmiss
  have hresneg : tcp_compute_result kc s.ctx.hardware_features buf < 0 := by
    rw [h1] at hneg
    exact hneg
  have hnotpos : ¬ 0 < tcp_compute_result kc s.ctx.hardware_features buf := by
    omega
  constructor
  · intro e he
    rw [h1] at he
    rcases tcp_cache_store_mem _ _ _ _ _ e he with hold | hnew
    · exact hinv e hold
    · left
      rw [hnew, if_neg hnotpos]
  · have hhit : tcp_cache_lookup
        ((tcp_validate_descriptor_kernel kc e1 t1 s buf).2).tcp_cache
        (tcp_descriptor_hash kc buf)
        = some (if 0 < tcp_compute_result kc s.ctx.hardware_features buf
            then 1 else 0) := by
      rw [h1]
      exact tcp_cache_lookup_store_self _ _ _ _ _ hmiss (by rw [hlen]; exact hhead)
    rw [tcp_validate_hit kc e2 t2 _ buf _ hhit, if_neg hnotpos]
    rfl

theorem C10_cache_collapses_errors_witness :
    tcp_cache_lookup (tcp_initial_globals 7).tcp_cache
        (tcp_descriptor_hash fallback_crypto [3, 3, 3]) = none ∧
    (tcp_initial_globals 7).tcp_cache.length = TCP_CACHE_SIZE ∧
    (tcp_initial_globals 7).tcp_cache_head < TCP_CACHE_SIZE ∧
    (∀ e ∈ (tcp_initial_globals 7).tcp_cache,
      e.validation_result = 0 ∨ e.validation_result = 1) ∧
    (tcp_validate_descriptor_kernel fallback_crypto 5 100
        (tcp_initial_globals 7) [3, 3, 3]).1 < 0 ∧
    ((∀ e ∈ (tcp_validate_descriptor_kernel fallback_crypto 5 100
          (tcp_initial_globals 7) [3, 3, 3]).2.tcp_cache,
        e.validation_result = 0 ∨ e.validation_result = 1) ∧
     (tcp_validate_descriptor_kernel fallback_crypto 6 200
        (tcp_validate_descriptor_kernel fallback_crypto 5 100
          (tcp_initial_globals 7) [3, 3, 3]).2 [3, 3, 3]).1 = 0) :=
  ⟨tcp_initial_cache_miss _ (by decide),
   by norm_num [tcp_initial_globals, tcp_initial_cache],
   by norm_num [tcp_initial_globals, TCP_CACHE_SIZE],
   fun e he => by rw [List.eq_of_mem_replicate he]; left; rfl,
   by rw [tcp_validate_miss fallback_crypto 5 100 (tcp_initial_globals 7)
       [3, 3, 3] (tcp_initial_cache_miss _ (by decide))]
      decide,
   C10_cache_collapses_errors fallback_crypto 5 100 6 200
     (tcp_initial_globals 7) [3, 3, 3]
     (tcp_initial_cache_miss _ (by decide))
     (by norm_num [tcp_initial_globals, tcp_initial_cache])
     (by norm_num [tcp_initial_globals, TCP_CACHE_SIZE])
     (fun e he => by rw [List.eq_of_mem_replicate he]; left; rfl)
     (by rw [tcp_validate_miss fallback_crypto 5 100 (tcp_initial_globals 7)
         [3, 3, 3] (tcp_initial_cache_miss _ (by decide))]
         decide)⟩

/-- Claim C8: the decision cache is a fixed-capacity (TCP_CACHE_SIZE) ring
with pure FIFO overwrite: storing TCP_CACHE_SIZE + 1 pairwise-distinct
8-byte fingerprints into the freshly allocated cache overwrites every slot
and wraps, so the first (oldest) fingerprint no longer hits while each of
the last TCP_CACHE_SIZE fingerprints still returns its stored decision. -/
theorem C8_cache_fifo_eviction (p0 : List Nat × Nat)
    (rest : List (List Nat × Nat))
    (hlen : rest.length = TCP_CACHE_SIZE)
    (hdist : (p0 :: rest).Pairwise (fun a b => a.1 ≠ b.1))
    (hbytes : ∀ p ∈ p0 :: rest, p.1.length = 8) :
    tcp_cache_lookup
        (tcp_store_sequence (p0 :: rest) (tcp_initial_cache, 0)).1 p0.1 = none ∧
    ∀ p ∈ rest, tcp_cache_lookup
        (tcp_store_sequence (p0 :: rest) (tcp_initial_cache, 0)).1 p.1
      = some p.2 := by
  have hrest_ne : rest ≠ [] := by
    intro h
    rw [h] at hlen
    simp [TCP_CACHE_SIZE] at hlen
  obtain ⟨hp0, hpair_rest⟩ := List.pairwise_cons.mp hdist
  have hsplit : rest.dropLast ++ [rest.getLast hrest_ne] = rest :=
    List.dropLast_append_getLast hrest_ne
  set dl := rest.dropLast with hdl
  set lastp := rest.getLast hrest_ne with hlast
  have hcache_len : tcp_initial_cache.length = TCP_CACHE_SIZE := by
    simp [tcp_initial_cache]
  have hdl_len : dl.length = TCP_CACHE_SIZE - 1 := by
    rw [hdl, List.length_dropLast, hlen]
  have hlen1 : (p0 :: dl).length = TCP_CACHE_SIZE := by
    simp only [List.length_cons, hdl_len]
    norm_num [TCP_CACHE_SIZE]
  have hinit_ne : tcp_initial_cache ≠ [] := by
    intro h
    have hcl := congrArg List.length h
    rw [hcache_len] at hcl
    simp [TCP_CACHE_SIZE] at hcl
  have hdrop : tcp_initial_cache.drop TCP_CACHE_SIZE = [] := by
    rw [← hcache_len]
    exact List.drop_length _
  have hphase1 : tcp_store_sequence (p0 :: dl) (tcp_initial_cache, 0)
      = ((p0 :: dl).map tcp_seq_entry, 0) := by
    have h := tcp_store_sequence_fill (p0 :: dl) [] tcp_initial_cache hinit_ne
      (by rw [hlen1, hcache_len])
    simp only [List.nil_append, List.length_nil] at h
    rw [Nat.zero_add, Nat.zero_add] at h
    rw [hlen1, hcache_len, hdrop, Nat.mod_self, List.append_nil] at h
    exact h
  have hwhole : tcp_store_sequence (p0 :: rest) (tcp_initial_cache, 0)
      = tcp_store_sequence [lastp] ((p0 :: dl).map tcp_seq_entry, 0) := by
    conv_lhs => rw [← hsplit]
    rw [show p0 :: (dl ++ [lastp]) = (p0 :: dl) ++ [lastp] from rfl,
      tcp_store_sequence_append, hphase1]
  have hfinal : (tcp_store_sequence (p0 :: rest) (tcp_initial_cache, 0)).1
      = tcp_seq_entry lastp :: dl.map tcp_seq_entry := by
    rw [hwhole]
    rfl
  constructor
  · rw [hfinal]
    apply tcp_cache_lookup_eq_none
    intro e he
    rcases List.mem_cons.mp he with rfl | hm
    · exact fun hh => hp0 lastp (List.getLast_mem hrest_ne) hh.symm
    · obtain ⟨pp, hppdl, rfl⟩ := List.mem_map.mp hm
      exact fun hh => hp0 pp (List.dropLast_subset rest hppdl) hh.symm
  · intro p hp
    rw [hfinal]
    rw [← hsplit] at hp
    have hpair_split : (dl ++ [lastp]).Pairwise (fun a b => a.1 ≠ b.1) := by
      rw [hsplit]
      exact hpair_rest
    rcases List.mem_append.mp hp with hpdl | hplast
    · have hcross := (List.pairwise_append.mp hpair_split).2.2
      have hne : ¬ (tcp_seq_entry lastp).descriptor_hash = p.1 := by
        intro hh
        exact hcross p hpdl lastp (List.mem_singleton.mpr rfl) hh.symm
      unfold tcp_cache_lookup
      rw [if_neg hne]
      exact tcp_cache_lookup_map_pairwise dl
        (List.pairwise_append.mp hpair_split).1 p hpdl
    · have hpl : p = lastp := by simpa using hplast
      subst hpl
      unfold tcp_cache_lookup tcp_seq_entry
      rw [if_pos rfl]

/-- The i-th distinct 8-byte fingerprint used by the C8 witness, paired with
decision byte 1. -/
def c8_key (i : Nat) : List Nat × Nat := ([i % 256, i / 256, 0, 0, 0, 0, 0, 0], 1)

theorem c8_key_fst_inj {i j : Nat} (h : (c8_key i).1 = (c8_key j).1) : i = j := by
  unfold c8_key at h
  simp only [List.cons.injEq, and_true] at h
  omega

theorem c8_keys_pairwise : ((List.range (TCP_CACHE_SIZE + 1)).map c8_key).Pairwise
    (fun a b => a.1 ≠ b.1) := by
  rw [List.pairwise_map]
  exact (List.pairwise_lt_range _).imp
    (fun hab heq => absurd (c8_key_fst_inj heq) (Nat.ne_of_lt hab))

theorem c8_cons_eq :
    c8_key 0 :: (List.range TCP_CACHE_SIZE).map (fun i => c8_key (i + 1))
      = (List.range (TCP_CACHE_SIZE + 1)).map c8_key := by
  rw [List.range_succ_eq_map, List.map_cons, List.map_map]
  rfl

theorem c8_keys_len8 :
    ∀ p ∈ c8_key 0 :: (List.range TCP_CACHE_SIZE).map (fun i => c8_key (i + 1)),
      p.1.length = 8 := by
  intro p hp
  rcases List.mem_cons.mp hp with rfl | hm
  · rfl
  · obtain ⟨i, _, rfl⟩ := List.mem_map.mp hm
    rfl

theorem C8_cache_fifo_eviction_witness :
    ((List.range TCP_CACHE_SIZE).map (fun i => c8_key (i + 1))).length
      = TCP_CACHE_SIZE ∧
    (c8_key 0 :: (List.range TCP_CACHE_SIZE).map (fun i => c8_key (i + 1))).Pairwise
      (fun a b => a.1 ≠ b.1) ∧
    (∀ p ∈ c8_key 0 :: (List.range TCP_CACHE_SIZE).map (fun i => c8_key (i + 1)),
      p.1.length = 8) ∧
    (tcp_cache_lookup (tcp_store_sequence
        (c8_key 0 :: (List.range TCP_CACHE_SIZE).map (fun i => c8_key (i + 1)))
        (tcp_initial_cache, 0)).1 (c8_key 0).1 = none ∧
     ∀ p ∈ (List.range TCP_CACHE_SIZE).map (fun i => c8_key (i + 1)),
       tcp_cache_lookup (tcp_store_sequence
         (c8_key 0 :: (List.range TCP_CACHE_SIZE).map (fun i => c8_key (i + 1)))
         (tcp_initial_cache, 0)).1 p.1 = some p.2) :=
  ⟨by simp, by rw [c8_cons_eq]; exact c8_keys_pairwise, c8_keys_len8,
   C8_cache_fifo_eviction (c8_key 0) _ (by simp)
     (by rw [c8_cons_eq]; exact c8_keys_pairwise) c8_keys_len8⟩
